import Mathlib

/-!
Shallow embedding of the download-orchestration logic of
`src/classes/mainwindow.py` (class `MainWindow` of the YT Channel Downloader).

The Qt model/view state is represented by explicit data: each tree-view row
becomes a `Row`, each `DownloadThread` object becomes a `DLThread` recording
its signal connections, each `GetListThread` becomes a `GetListFetch`, and the
whole `MainWindow` becomes an `MWState`.  Methods of `MainWindow` become pure
state-transformers with the same names.  The two helpers of `DownloadThread`
used by `MainWindow` (`is_download_complete` and `sanitize_filename`) and the
URL predicates of `YTChannel` are not part of `mainwindow.py`; they are taken
as function parameters (`PopParams`, `URLPredicates`) so every theorem holds
for an arbitrary filesystem / sanitizer / URL grammar.
-/

/-- Slots of `MainWindow` that a `DownloadThread` signal can be connected to. -/
inductive Slot where
  | populateWindowList
  | updateProgress
  | handleDownloadError
  | showDownloadComplete
deriving DecidableEq, Repr

/-- Slots of `MainWindow` that a `GetListThread.finished` signal can be
connected to. -/
inductive FetchSlot where
  | handleVideoList
  | handleSingleVideo
  | enableGetVidListButton
deriving DecidableEq, Repr

/-- One row of the tree-view model: column 0 check state, styling lock
(`setFlags` + grey foreground applied together in `populate_window_list`),
title (column 1), link (column 2) and progress text (column 3). -/
structure Row where
  checked : Bool
  locked : Bool
  title : String
  link : String
  progress : String
deriving DecidableEq, Repr, Inhabited

/-- A `DownloadThread(link, index, title, ...)` object together with the slots
connected to its `downloadProgressSignal` and `downloadCompleteSignal`, and
whether `start()` was called on it. -/
structure DLThread where
  link : String
  vidIndex : Nat
  title : String
  progressConns : List Slot
  completeConns : List Slot
  started : Bool
deriving DecidableEq, Repr, Inhabited

/-- The constructor arguments of a `GetListThread(channel_id, yt_channel,
channel_url)` call: `channelArg = none` models Python `None`, `some s` a
string first argument; `urlArg` is the optional third argument. -/
structure GetListCtor where
  channelArg : Option String
  urlArg : Option String
deriving DecidableEq, Repr, Inhabited

/-- A constructed-and-started `GetListThread` whose `finished` signal is still
connected (it has not yet delivered its result). -/
structure GetListFetch where
  ctor : GetListCtor
  finishedConns : List FetchSlot
deriving DecidableEq, Repr, Inhabited

/-- The state of a `MainWindow`: the semaphore (`download_semaphore`) as a
capacity plus currently-available count, the tree-view model rows, and the
download bookkeeping attributes initialized in `init_download_structs`.
`liveFetches` holds every started `GetListThread` that has not yet finished
(its `finished` connections remain live even after `self.get_list_thread` is
reassigned).  `discardedCtors` is a ghost record of `GetListThread` objects
that were constructed but immediately overwritten without being connected or
started. -/
structure MWState where
  semCapacity : Nat
  semAvailable : Nat
  rows : List Row
  titlesLinks : List (String × String)
  vidDlIndexes : List Nat
  dlThreads : List DLThread
  dlPathCorrespondences : List (String × String)
  userSettings : List (String × String)
  liveFetches : List GetListFetch
  discardedCtors : List GetListCtor
  getVidListEnabled : Bool
deriving DecidableEq, Repr, Inhabited

/-- `dict.get(key, default)` over an association list (newest entry first,
mirroring Python dict assignment where the latest write wins on lookup). -/
def lookupD (assoc : List (String × String)) (k dflt : String) : String :=
  match assoc.lookup k with
  | some v => v
  | none => dflt

/-- `MainWindow.connect_signals`, restricted to its loop over
`self.dl_threads`: each thread in the list at call time gets
`downloadProgressSignal → handle_download_error` and
`downloadCompleteSignal → show_download_complete` appended. -/
def connect_signals_threads (threads : List DLThread) : List DLThread :=
  threads.map (fun t =>
    { t with
      progressConns := t.progressConns ++ [Slot.handleDownloadError],
      completeConns := t.completeConns ++ [Slot.showDownloadComplete] })

/-- `MainWindow.__init__`: creates `QSemaphore(4)` (a hard-coded literal,
with a TODO comment about making it configurable), runs
`init_download_structs` (all download bookkeeping empty), then
`connect_signals` — whose thread loop runs over the just-emptied
`dl_threads` list.  The user settings are whatever `SettingsManager`
loaded; nothing in `__init__` consults them for the semaphore. -/
def mainWindowInit (userSettings : List (String × String)) : MWState :=
  let dlThreads0 : List DLThread := []
  { semCapacity := 4
    semAvailable := 4
    rows := []
    titlesLinks := []
    vidDlIndexes := []
    dlThreads := connect_signals_threads dlThreads0
    dlPathCorrespondences := []
    userSettings := userSettings
    liveFetches := []
    discardedCtors := []
    getVidListEnabled := true }

/-- The `data` dict delivered to `handle_download_error`: an `index` entry
(always read, so modelled as present) and an optional `error` entry
(read with `data.get("error", "Unexpected error")`). -/
structure ErrorData where
  index : Nat
  error : Option String
deriving DecidableEq, Repr

/-- The three reports `handle_download_error` can produce for an item. -/
inductive ErrorKind where
  | downloadError
  | networkError
  | unexpectedError
deriving DecidableEq, Repr

/-- `MainWindow.handle_download_error`: reads `data.get("error", "Unexpected
error")` and branches on the two recognized strings, defaulting to the
unexpected-error report. -/
def handle_download_error (d : ErrorData) : ErrorKind :=
  let errorType := d.error.getD "Unexpected error"
  if errorType = "Download error" then ErrorKind.downloadError
  else if errorType = "Network error" then ErrorKind.networkError
  else ErrorKind.unexpectedError

/-- The two `DownloadThread` static helpers used by `MainWindow` during list
population and select-all.  They live in `classes/download_thread.py`, outside
`mainwindow.py`; both are taken as opaque-behaviour function parameters:
`probe` stands for `DownloadThread.is_download_complete` (the FileProbe, a
pure predicate on destination paths) and `sanitize` for
`DownloadThread.sanitize_filename`. -/
structure PopParams where
  probe : String → Bool
  sanitize : String → String

/-- Whether the second character list is an initial segment of the first. -/
def beginsWith : List Char → List Char → Bool
  | _, [] => true
  | [], _ :: _ => false
  | a :: as, b :: bs => a == b && beginsWith as bs

/-- `s.startswith(pre)` on the underlying character lists. -/
def strStartsWith (s pre : String) : Bool :=
  beginsWith s.data pre.data

/-- `s.endswith(suf)` on the underlying character lists. -/
def strEndsWith (s suf : String) : Bool :=
  beginsWith s.data.reverse suf.data.reverse

/-- `os.path.join(a, b)` on two POSIX components: an absolute second
component wins; otherwise the components are joined with exactly one `/`. -/
def joinPath (a b : String) : String :=
  if strStartsWith b "/" then b
  else if a = "" then b
  else if strEndsWith a "/" then a ++ b
  else a ++ "/" ++ b

/-- The destination path computed in `populate_window_list`:
`os.path.join(download_directory, DownloadThread.sanitize_filename(title))`. -/
def destPath (pp : PopParams) (dir title : String) : String :=
  joinPath dir (pp.sanitize title)

/-- One iteration of the `populate_window_list` row loop: a fresh checkable
unchecked row from a `(title, link)` pair; if `is_download_complete` holds of
its destination path the checkbox flags are stripped, the row is greyed and
its progress cell reads `"Complete"` (all three modelled by `locked`). -/
def populateRow (pp : PopParams) (dir : String) (tl : String × String) : Row :=
  if pp.probe (destPath pp dir tl.1) then
    { checked := false, locked := true, title := tl.1, link := tl.2,
      progress := "Complete" }
  else
    { checked := false, locked := false, title := tl.1, link := tl.2,
      progress := "" }

/-- `MainWindow.populate_window_list`: `reinit_model` clears the model, then
one row per entry of `yt_chan_vids_titles_links` is appended, and
`dl_path_correspondences[title] = full_file_path` is recorded for each.  The
dict write is modelled by prepending, so a lookup finds the most recently
stored path for a title (Python dict assignment semantics). -/
def populate_window_list (pp : PopParams) (s : MWState) : MWState :=
  let dir := lookupD s.userSettings "download_directory" "./"
  { s with
    rows := s.titlesLinks.map (populateRow pp dir)
    dlPathCorrespondences :=
      s.titlesLinks.foldl
        (fun c tl => (tl.1, destPath pp dir tl.1) :: c)
        s.dlPathCorrespondences }

/-- One iteration of the `onSelectAllStateChanged` row loop:
`dl_path_correspondences[item_title]` (a missing key raises `KeyError`,
modelled by `none`); the row is skipped when the path is truthy and
`is_download_complete` holds of it, otherwise both the display and check-state
roles of column 0 are set to the new value. -/
def onSelectAllRow (probe : String → Bool) (corr : List (String × String))
    (v : Bool) (r : Row) : Option Row :=
  match corr.lookup r.title with
  | none => none
  | some p =>
      if p ≠ "" ∧ probe p = true then some r
      else some { r with checked := v }

/-- The `onSelectAllStateChanged` loop over all model rows, propagating a
`KeyError` (`none`) from any row. -/
def onSelectAllRows (probe : String → Bool) (corr : List (String × String))
    (v : Bool) : List Row → Option (List Row)
  | [] => some []
  | r :: rest =>
      match onSelectAllRow probe corr v r with
      | none => none
      | some r' =>
          match onSelectAllRows probe corr v rest with
          | none => none
          | some rest' => some (r' :: rest')

/-- `MainWindow.onSelectAllStateChanged(state)`: `new_value = (state == 2)`,
then every model row is visited in order. -/
def onSelectAllStateChanged (probe : String → Bool) (sv : Nat) (s : MWState) :
    Option MWState :=
  (onSelectAllRows probe s.dlPathCorrespondences (sv == 2) s.rows).map
    (fun rs => { s with rows := rs })

/-- The per-row outcome of `onSelectAllStateChanged` when no `KeyError`
occurs: the row is left untouched exactly when its looked-up path is truthy
and reported complete, otherwise its check state becomes the new value. -/
def selectAllResultRow (probe : String → Bool) (corr : List (String × String))
    (v : Bool) (r : Row) : Row :=
  match corr.lookup r.title with
  | none => r
  | some p =>
      if p ≠ "" ∧ probe p = true then r
      else { r with checked := v }

/-- The first pass of `dl_vids`: the indexes of all rows whose column-0 item
is checked, in row order (`vid_dl_indexes`). -/
def checkedIndexes (rows : List Row) : List Nat :=
  (List.range rows.length).filter (fun i => (rows.getD i default).checked)

/-- `self.model.setItem(index, 3, QStandardItem())`: the progress cell of row
`i` is replaced by a fresh empty item. -/
def setProgressAt (rows : List Row) (i : Nat) : List Row :=
  rows.set i { rows.getD i default with progress := "" }

/-- The `DownloadThread(link, index, title, self)` created and started for
row `i` by `dl_vids`: its `downloadCompleteSignal` is connected to
`populate_window_list` and its `downloadProgressSignal` to
`update_progress`, and nothing else. -/
def spawnThread (rows : List Row) (i : Nat) : DLThread :=
  { link := (rows.getD i default).link
    vidIndex := i
    title := (rows.getD i default).title
    progressConns := [Slot.updateProgress]
    completeConns := [Slot.populateWindowList]
    started := true }

/-- `MainWindow.dl_vids`: collects the checked row indexes, clears each such
row's progress cell, and for each index creates, connects and starts a
`DownloadThread`, appending it to `dl_threads`.  No semaphore operation
occurs anywhere in this method. -/
def dl_vids (s : MWState) : MWState :=
  let idxs := checkedIndexes s.rows
  { s with
    vidDlIndexes := idxs
    rows := idxs.foldl setProgressAt s.rows
    dlThreads := s.dlThreads ++ idxs.map (spawnThread s.rows) }

/-- `MainWindow.update_progress(progress_data)`: replaces the progress cell
of the given row with the stringified progress value. -/
def update_progress (i : Nat) (prog : String) (s : MWState) : MWState :=
  { s with rows := s.rows.set i { s.rows.getD i default with progress := prog } }

/-- The `YTChannel` URL predicates and `get_channel_id` used by
`show_vid_list`.  They live in `classes/YTChannel.py`, outside
`mainwindow.py`, and are taken as parameters; `get_channel_id` returning
`none` models a raised `ValueError` / `urllib.error.URLError`. -/
structure URLPredicates where
  is_video_with_playlist_url : String → Bool
  is_playlist_url : String → Bool
  is_video_url : String → Bool
  is_short_video_url : String → Bool
  get_channel_id : String → Option String

/-- Constructing, connecting and starting a `GetListThread`: the started
thread joins `liveFetches` with its `finished` connections. -/
def startFetch (s : MWState) (c : GetListCtor) (conns : List FetchSlot) :
    MWState :=
  { s with liveFetches := s.liveFetches ++ [{ ctor := c, finishedConns := conns }] }

/-- `MainWindow.show_vid_list`: disables the get-list button and classifies
the URL.  Playlist-shaped URLs start a `GetListThread("playlist", ...)`
connected to `handle_video_list`.  Video-shaped URLs: when the URL is a
short-video URL a `GetListThread("short", ...)` is constructed first but —
under a `# Debug exception` comment — `self.get_list_thread` is immediately
and unconditionally reassigned to `GetListThread(channel_id, ...)` with
`channel_id` still `None`, and only that second thread is connected (to
`handle_single_video`) and started; the first is recorded in the ghost field
`discardedCtors`.  Otherwise the URL is treated as a channel URL:
`get_channel_id` may raise (error dialog re-enables the button and returns),
else a channel fetch starts, connected to `handle_video_list`. -/
def show_vid_list (p : URLPredicates) (url : String) (s : MWState) : MWState :=
  let s0 := { s with getVidListEnabled := false }
  if p.is_video_with_playlist_url url || p.is_playlist_url url then
    startFetch s0 { channelArg := some "playlist", urlArg := some url }
      [FetchSlot.handleVideoList, FetchSlot.enableGetVidListButton]
  else if p.is_video_url url || p.is_short_video_url url then
    let s1 :=
      if p.is_short_video_url url then
        { s0 with discardedCtors :=
            s0.discardedCtors ++ [{ channelArg := some "short", urlArg := some url }] }
      else s0
    startFetch s1 { channelArg := none, urlArg := some url }
      [FetchSlot.handleSingleVideo, FetchSlot.enableGetVidListButton]
  else
    match p.get_channel_id url with
    | none => { s0 with getVidListEnabled := true }
    | some cid =>
        startFetch s0 { channelArg := some cid, urlArg := none }
          [FetchSlot.handleVideoList, FetchSlot.enableGetVidListButton]

/-- Delivering a `GetListThread.finished` signal to one connected slot:
`handle_video_list` / `handle_single_video` store the result list in
`yt_chan_vids_titles_links` and repopulate the model;
`enable_get_vid_list_button` re-enables the button. -/
def runFetchSlot (pp : PopParams) (result : List (String × String))
    (s : MWState) : FetchSlot → MWState
  | FetchSlot.handleVideoList =>
      populate_window_list pp { s with titlesLinks := result }
  | FetchSlot.handleSingleVideo =>
      populate_window_list pp { s with titlesLinks := result }
  | FetchSlot.enableGetVidListButton => { s with getVidListEnabled := true }

/-- Completion of the `i`-th still-live `GetListThread` with `result`: every
slot connected to its `finished` signal runs in connection order, then the
thread leaves `liveFetches`.  Nothing consults which fetch is the most recent
one — there is no generation counter in `mainwindow.py`. -/
def completeFetch (pp : PopParams) (i : Nat) (result : List (String × String))
    (s : MWState) : MWState :=
  match s.liveFetches.get? i with
  | none => s
  | some f =>
      let s' := f.finishedConns.foldl (runFetchSlot pp result) s
      { s' with liveFetches := s'.liveFetches.eraseIdx i }

/-- The `MainWindow` event-loop operations relevant to download bookkeeping,
used to close the reachable states under any interleaving of user actions
and signal deliveries. -/
inductive MWOp where
  | opDlVids : MWOp
  | opSelectAll (probe : String → Bool) (sv : Nat) : MWOp
  | opPopulate (pp : PopParams) : MWOp
  | opHandleVideoList (pp : PopParams) (result : List (String × String)) : MWOp
  | opUpdateProgress (i : Nat) (prog : String) : MWOp
  | opShowVidList (p : URLPredicates) (url : String) : MWOp
  | opCompleteFetch (pp : PopParams) (i : Nat)
      (result : List (String × String)) : MWOp

/-- Executing one operation.  A `KeyError` in `onSelectAllStateChanged`
(`none`) propagates to the Qt event loop; either way the thread list and its
signal connections are untouched, which is all the theorems below use of that
branch. -/
def applyOp (s : MWState) : MWOp → MWState
  | MWOp.opDlVids => dl_vids s
  | MWOp.opSelectAll probe sv =>
      match onSelectAllStateChanged probe sv s with
      | some s' => s'
      | none => s
  | MWOp.opPopulate pp => populate_window_list pp s
  | MWOp.opHandleVideoList pp result =>
      populate_window_list pp { s with titlesLinks := result }
  | MWOp.opUpdateProgress i prog => update_progress i prog s
  | MWOp.opShowVidList p url => show_vid_list p url s
  | MWOp.opCompleteFetch pp i result => completeFetch pp i result s

/-- A `MainWindow` run: `__init__` followed by any sequence of operations. -/
def runOps (us : List (String × String)) (ops : List MWOp) : MWState :=
  ops.foldl applyOp (mainWindowInit us)

/-- Modelled from the spec: the admission-gate protocol of the download jobs.
`DownloadThread.run` is not under `src/`; per the spec each DownloadJob holds
one admission slot for its lifetime, acquired from the shared gate when the
job starts its transfer and released unconditionally at its terminal outcome.
Jobs are indistinguishable for the bound, so the world is abstracted to
counters: available slots and the number of spawned / running / finished
jobs. -/
structure GateWorld where
  avail : Nat
  spawned : Nat
  running : Nat
  finished : Nat
deriving DecidableEq, Repr

/-- Modelled from the spec: one scheduler step of the gate protocol — a
spawned job acquires a slot and starts running (only possible while a slot is
available), or a running job reaches its terminal outcome and releases its
slot. -/
inductive GateStep : GateWorld → GateWorld → Prop where
  | acquire (w : GateWorld) (ha : 0 < w.avail) (hs : 0 < w.spawned) :
      GateStep w
        { avail := w.avail - 1, spawned := w.spawned - 1,
          running := w.running + 1, finished := w.finished }
  | release (w : GateWorld) (hr : 0 < w.running) :
      GateStep w
        { avail := w.avail + 1, spawned := w.spawned,
          running := w.running - 1, finished := w.finished + 1 }

/-- Whether the second character list occurs inside the first. -/
def hasSubList : List Char → List Char → Bool
  | [], pat => pat.isEmpty
  | a :: rest, pat => beginsWith (a :: rest) pat || hasSubList rest pat

/-- Modelled from the spec: a substring test, standing in for the regular
expression matching done by `YTChannel`'s URL predicates (absent from
`src/`). -/
def containsSub (s pat : String) : Bool :=
  hasSubList s.data pat.data

/-- Modelled from the spec: a concrete instance of the `YTChannel` URL-shape
predicates (`is_playlist_url`, `is_video_url`, `is_short_video_url`, ...)
faithful to the spec's URL shapes — playlist, single video, short-form video,
channel — used to evaluate the dispatch logic on concrete URLs. -/
def predsModel : URLPredicates :=
  { is_video_with_playlist_url := fun u =>
      containsSub u "watch?" && containsSub u "list="
    is_playlist_url := fun u => containsSub u "playlist?list="
    is_video_url := fun u => containsSub u "watch?v="
    is_short_video_url := fun u => containsSub u "shorts/"
    get_channel_id := fun u =>
      if containsSub u "youtube.com/" then some u else none }

/-- A `PopParams` instance for concrete evaluation: nothing on disk is
complete, and titles are already safe filenames. -/
def ppNone : PopParams :=
  { probe := fun _ => false, sanitize := fun t => t }

/-- The connection pattern of every `DownloadThread` that `dl_vids` creates:
progress to `update_progress`, completion to `populate_window_list`. -/
def threadConnsOK (t : DLThread) : Prop :=
  t.progressConns = [Slot.updateProgress]
  ∧ t.completeConns = [Slot.populateWindowList]

/-- Five fetched items, all then selected via select-all: the model state
just before the user presses the download button. -/
def c1CexState : MWState :=
  runOps []
    [MWOp.opHandleVideoList ppNone
      [("a", "la"), ("b", "lb"), ("c", "lc"), ("d", "ld"), ("e", "le")],
     MWOp.opSelectAll (fun _ => false) 2]

/-- Two overlapping list-fetch requests: the second playlist fetch starts
while the first is still in flight. -/
def c2StateTwoFetches : MWState :=
  show_vid_list predsModel "https://www.youtube.com/playlist?list=BBB"
    (show_vid_list predsModel "https://www.youtube.com/playlist?list=AAA"
      (mainWindowInit []))

/-- The first (superseded) fetch of `c2StateTwoFetches`. -/
def c2FetchA : GetListFetch :=
  { ctor := { channelArg := some "playlist",
              urlArg := some "https://www.youtube.com/playlist?list=AAA" }
    finishedConns := [FetchSlot.handleVideoList,
                      FetchSlot.enableGetVidListButton] }

/-- Both fetches of `c2StateTwoFetches` complete, the second one first: its
result is delivered, then the superseded first fetch delivers afterwards. -/
def c2Final : MWState :=
  completeFetch ppNone 0 [("A1", "a1")]
    (completeFetch ppNone 1 [("B1", "b1")] c2StateTwoFetches)

/-- A probe reporting exactly the path `./t` complete, with an identity
sanitizer. -/
def ppT : PopParams :=
  { probe := fun p => p == "./t", sanitize := fun t => t }

/-- A window state holding a single fetched item `("t", "l")`. -/
def stT : MWState :=
  { mainWindowInit [] with titlesLinks := [("t", "l")] }

/-- The row `populate_window_list` builds for `("t", "l")` when its
destination `./t` is already complete. -/
def rowT : Row :=
  { checked := false, locked := true, title := "t", link := "l",
    progress := "Complete" }

/-- A probe reporting exactly the path `./done` complete. -/
def probeDone : String → Bool := fun p => p == "./done"

/-- A two-row model where row `t1` is complete (path `./done`) and row `t2`
is not; the correspondence map holds both titles. -/
def c5State : MWState :=
  { mainWindowInit [] with
    rows := [{ checked := false, locked := true, title := "t1", link := "l1",
               progress := "Complete" },
             { checked := false, locked := false, title := "t2", link := "l2",
               progress := "" }]
    dlPathCorrespondences := [("t1", "./done"), ("t2", "./t2")] }

/-- A state with one fetched item and a stale model row with selection and
progress display. -/
def c8StateA : MWState :=
  { mainWindowInit [] with
    titlesLinks := [("t", "l")]
    rows := [{ checked := true, locked := false, title := "x", link := "y",
               progress := "55%" }] }

/-- Same fetched item and settings as `c8StateA`, empty model. -/
def c8StateB : MWState :=
  { mainWindowInit [] with titlesLinks := [("t", "l")] }

/-- Fetch one item, select all, dispatch: a run in which one download thread
is created. -/
def c10Ops : List MWOp :=
  [MWOp.opHandleVideoList ppNone [("t", "l")],
   MWOp.opSelectAll (fun _ => false) 2,
   MWOp.opDlVids]

/-- The one download thread the `c10Ops` run creates. -/
def c10Thread : DLThread :=
  { link := "l", vidIndex := 0, title := "t",
    progressConns := [Slot.updateProgress],
    completeConns := [Slot.populateWindowList], started := true }

/-- C7: for every per-item error notification `{index, error}` the handler
classifies it into exactly one of three kinds: `error = "Download error"`
yields the download-error report, `error = "Network error"` the network-error
report, and any other value — including a missing `error` field — the
unexpected-error report. -/
theorem C7_error_classification (d : ErrorData) :
    (handle_download_error d = ErrorKind.downloadError ↔
      d.error = some "Download error")
    ∧ (handle_download_error d = ErrorKind.networkError ↔
      d.error = some "Network error")
    ∧ (handle_download_error d = ErrorKind.unexpectedError ↔
      (d.error ≠ some "Download error" ∧ d.error ≠ some "Network error")) := by
  obtain ⟨i, e⟩ := d
  cases e with
  | none =>
      refine ⟨?_, ?_, ?_⟩ <;>
        simp [handle_download_error, Option.getD]
  | some s =>
      by_cases h1 : s = "Download error"
      · subst h1
        refine ⟨?_, ?_, ?_⟩ <;> simp [handle_download_error, Option.getD]
      · by_cases h2 : s = "Network error"
        · subst h2
          refine ⟨?_, ?_, ?_⟩ <;> simp [handle_download_error, Option.getD]
        · refine ⟨?_, ?_, ?_⟩ <;>
            simp [handle_download_error, Option.getD, h1, h2]

theorem gateStep_sum {w w' : GateWorld} (h : GateStep w w') :
    w'.avail + w'.running = w.avail + w.running := by
  cases h with
  | acquire ha hs =>
      show w.avail - 1 + (w.running + 1) = w.avail + w.running
      omega
  | release hr =>
      show w.avail + 1 + (w.running - 1) = w.avail + w.running
      omega

theorem gate_reach_sum {w w' : GateWorld}
    (h : Relation.ReflTransGen GateStep w w') :
    w'.avail + w'.running = w.avail + w.running := by
  induction h with
  | refl => rfl
  | tail _ step ih => exact (gateStep_sum step).trans ih

/-- C1, corrected: the original claim says the dispatch loop acquires one
admission slot per item before spawning and suspends while all slots are
occupied.  In `dl_vids` no semaphore operation exists: the loop spawns and
starts one `DownloadThread` per checked row unconditionally, leaving the
gate's available count untouched, and never suspends.  The at-most-N bound
rests entirely on the jobs themselves: per the spec (`DownloadThread.run` is
outside `src/`) each job acquires a slot when it starts transferring and
releases it at its terminal outcome, which does bound the number of
mid-transfer jobs by the capacity 4 (the `GateStep` protocol). -/
theorem C1_dispatch_spawns_all_without_acquiring (s : MWState) (w : GateWorld)
    (hreach : Relation.ReflTransGen GateStep
      { avail := 4, spawned := (checkedIndexes s.rows).length,
        running := 0, finished := 0 } w) :
    (dl_vids s).semAvailable = s.semAvailable
    ∧ (dl_vids s).semCapacity = s.semCapacity
    ∧ (dl_vids s).dlThreads
        = s.dlThreads ++ (checkedIndexes s.rows).map (spawnThread s.rows)
    ∧ (∀ i, (spawnThread s.rows i).started = true)
    ∧ w.running ≤ 4 := by
  refine ⟨rfl, rfl, rfl, fun i => rfl, ?_⟩
  have h := gate_reach_sum hreach
  simp only [] at h
  omega

theorem C1_witness :
    (dl_vids c1CexState).semAvailable = c1CexState.semAvailable
    ∧ (dl_vids c1CexState).semCapacity = c1CexState.semCapacity
    ∧ (dl_vids c1CexState).dlThreads
        = c1CexState.dlThreads
            ++ (checkedIndexes c1CexState.rows).map (spawnThread c1CexState.rows)
    ∧ (∀ i, (spawnThread c1CexState.rows i).started = true)
    ∧ ({ avail := 3, spawned := 4, running := 1, finished := 0 } : GateWorld).running ≤ 4 :=
  C1_dispatch_spawns_all_without_acquiring c1CexState
    { avail := 3, spawned := 4, running := 1, finished := 0 }
    (by
      show Relation.ReflTransGen GateStep
        { avail := 4, spawned := 5, running := 0, finished := 0 }
        { avail := 3, spawned := 4, running := 1, finished := 0 }
      exact Relation.ReflTransGen.single
        (GateStep.acquire
          { avail := 4, spawned := 5, running := 0, finished := 0 }
          (by decide) (by decide)))

/-- C1, counterexample to the claim as stated: with admission capacity 4 and
five selected rows, `dl_vids` spawns and starts all five jobs at once while
the semaphore's available count stays at 4 — the dispatch loop acquires
nothing and never suspends. -/
theorem C1_counterexample :
    (dl_vids c1CexState).dlThreads.length = 5
    ∧ ((dl_vids c1CexState).dlThreads.all (fun t => t.started)) = true
    ∧ (dl_vids c1CexState).semAvailable = c1CexState.semAvailable
    ∧ c1CexState.semAvailable = 4
    ∧ c1CexState.semCapacity = 4
    ∧ 4 < 5 := by decide

/-- C2, corrected: there is no generation counter; a completion arriving for
any still-connected fetch — superseded or not — is delivered in full to the
model.  Whenever the `i`-th live fetch finishes with `result`, the stored
title list becomes `result` and the model rows are rebuilt from it. -/
theorem C2_completion_always_delivered (pp : PopParams) (s : MWState)
    (i : Nat) (f : GetListFetch) (result : List (String × String))
    (hf : s.liveFetches.get? i = some f)
    (hconns : f.finishedConns
        = [FetchSlot.handleVideoList, FetchSlot.enableGetVidListButton]
      ∨ f.finishedConns
        = [FetchSlot.handleSingleVideo, FetchSlot.enableGetVidListButton]) :
    (completeFetch pp i result s).titlesLinks = result
    ∧ (completeFetch pp i result s).rows
        = result.map
            (populateRow pp (lookupD s.userSettings "download_directory" "./")) := by
  rw [List.get?_eq_getElem?] at hf
  rcases hconns with h | h <;>
    simp [completeFetch, hf, h, runFetchSlot, populate_window_list]

theorem C2_witness :
    (completeFetch ppNone 0 [("A1", "a1")] c2StateTwoFetches).titlesLinks
        = [("A1", "a1")]
    ∧ (completeFetch ppNone 0 [("A1", "a1")] c2StateTwoFetches).rows
        = [("A1", "a1")].map
            (populateRow ppNone
              (lookupD c2StateTwoFetches.userSettings "download_directory" "./")) :=
  C2_completion_always_delivered ppNone c2StateTwoFetches 0 c2FetchA
    [("A1", "a1")] (by decide) (Or.inl (by decide))

/-- C2, counterexample to the claim as stated: two overlapping fetch
requests; the second completes first and its list is shown, then the
superseded first fetch completes and its list is delivered too, overwriting
the model — the first request's result was not discarded. -/
theorem C2_counterexample :
    c2StateTwoFetches.liveFetches.length = 2
    ∧ (completeFetch ppNone 1 [("B1", "b1")] c2StateTwoFetches).titlesLinks
        = [("B1", "b1")]
    ∧ c2Final.titlesLinks = [("A1", "a1")]
    ∧ c2Final.rows.map Row.title = ["A1"]
    ∧ ([("A1", "a1")] : List (String × String)) ≠ [("B1", "b1")] := by decide

/-- C3: a short-form video URL is classified as short
(`is_short_video_url` holds) and a `GetListThread("short", ...)` is
constructed, but the `# Debug exception` line unconditionally replaces it
with a `GetListThread(None, ...)` — the single-video strategy — which is the
only thread connected and started.  The short-video strategy is therefore
never dispatched, contradicting the claimed one-to-one shape-to-strategy
mapping. -/
theorem C3_short_url_misdispatch :
    (show_vid_list predsModel "https://www.youtube.com/shorts/abc"
        (mainWindowInit [])).liveFetches
      = [{ ctor := { channelArg := none,
                     urlArg := some "https://www.youtube.com/shorts/abc" },
           finishedConns := [FetchSlot.handleSingleVideo,
                             FetchSlot.enableGetVidListButton] }]
    ∧ (show_vid_list predsModel "https://www.youtube.com/shorts/abc"
        (mainWindowInit [])).discardedCtors
      = [{ channelArg := some "short",
           urlArg := some "https://www.youtube.com/shorts/abc" }]
    ∧ predsModel.is_short_video_url "https://www.youtube.com/shorts/abc" = true
    ∧ ({ channelArg := some "short",
         urlArg := some "https://www.youtube.com/shorts/abc" } : GetListCtor)
        ≠ { channelArg := none,
            urlArg := some "https://www.youtube.com/shorts/abc" } := by decide

/-- C6, corrected: the admission capacity is the positive constant 4, but it
is not user-configurable — `__init__` passes the literal 4 to `QSemaphore`
(with a TODO about settings) and consults no user setting for it. -/
theorem C6_capacity_hardcoded_four (us : List (String × String)) :
    (mainWindowInit us).semCapacity = 4
    ∧ 0 < (mainWindowInit us).semCapacity :=
  ⟨rfl, by show (0 : Nat) < 4; decide⟩

/-- C6, counterexample to the claim as stated: whatever concurrency value the
user settings carry, the gate capacity stays 4. -/
theorem C6_counterexample :
    (mainWindowInit [("max_concurrent_downloads", "10")]).semCapacity = 4
    ∧ (mainWindowInit [("max_concurrent_downloads", "1")]).semCapacity = 4
    ∧ (4 : Nat) ≠ 10 := by decide

/-- Both branches of the row builder display the item's own title. -/
theorem populateRow_title (pp : PopParams) (dir : String) (tl : String × String) :
    (populateRow pp dir tl).title = tl.1 := by
  unfold populateRow
  split <;> rfl

/-- Appending to a nonempty string stays nonempty. -/
theorem str_append_ne_left (a b : String) (ha : a ≠ "") : a ++ b ≠ "" := by
  intro h
  apply ha
  have hd := congrArg String.data h
  rw [String.data_append] at hd
  have h0 : a.data = [] := (List.append_eq_nil.mp hd).1
  cases a with
  | mk l =>
      simp at h0
      subst h0
      rfl

/-- A join with a nonempty directory component is never the empty path. -/
theorem joinPath_ne_empty (a b : String) (ha : a ≠ "") : joinPath a b ≠ "" := by
  unfold joinPath
  by_cases h1 : strStartsWith b "/" = true
  · rw [if_pos h1]
    intro hb
    subst hb
    exact absurd h1 (by decide)
  · rw [if_neg h1, if_neg ha]
    by_cases h3 : strEndsWith a "/" = true
    · rw [if_pos h3]
      exact str_append_ne_left a b ha
    · rw [if_neg h3]
      exact str_append_ne_left (a ++ "/") b (str_append_ne_left a "/" ha)

/-- The correspondence-map fold leaves lookups of absent titles unchanged. -/
theorem corr_fold_lookup_nomem (f : String → String) :
    ∀ (tls : List (String × String)) (c0 : List (String × String)) (k : String),
      k ∉ tls.map Prod.fst →
      (tls.foldl (fun c tl => (tl.1, f tl.1) :: c) c0).lookup k = c0.lookup k := by
  intro tls
  induction tls with
  | nil => intro c0 k _; rfl
  | cons t ts ih =>
      intro c0 k hk
      simp only [List.map_cons, List.mem_cons, not_or] at hk
      obtain ⟨hne, hnm⟩ := hk
      rw [List.foldl_cons, ih _ k hnm, List.lookup_cons,
        beq_eq_false_iff_ne.mpr hne]

/-- After the correspondence-map fold, every title occurring in the fetched
list looks up to its derived destination path. -/
theorem corr_fold_lookup (f : String → String) :
    ∀ (tls : List (String × String)) (c0 : List (String × String)) (k : String),
      k ∈ tls.map Prod.fst →
      (tls.foldl (fun c tl => (tl.1, f tl.1) :: c) c0).lookup k = some (f k) := by
  intro tls
  induction tls with
  | nil => intro c0 k hk; simp at hk
  | cons t ts ih =>
      intro c0 k hk
      rw [List.foldl_cons]
      by_cases hmem : k ∈ ts.map Prod.fst
      · exact ih _ k hmem
      · have hkt : k = t.1 := by
          simp only [List.map_cons, List.mem_cons] at hk
          tauto
        rw [corr_fold_lookup_nomem f ts _ k hmem, List.lookup_cons]
        simp [hkt]

/-- C4: after list population a row is locked — checkbox stripped, greyed,
progress `Complete` — if and only if `is_download_complete` held of that
row's destination path at population time; all rows are rebuilt unchecked
and no other row is locked. -/
theorem C4_locked_iff_probe_complete (pp : PopParams) (s : MWState) (r : Row)
    (hr : r ∈ (populate_window_list pp s).rows) :
    (r.locked = true ↔
      pp.probe (destPath pp (lookupD s.userSettings "download_directory" "./")
        r.title) = true)
    ∧ (r.progress = "Complete" ↔ r.locked = true)
    ∧ r.checked = false := by
  simp only [populate_window_list, List.mem_map] at hr
  obtain ⟨tl, htl, rfl⟩ := hr
  rw [populateRow_title]
  cases hprobe : pp.probe
      (destPath pp (lookupD s.userSettings "download_directory" "./") tl.1) with
  | true => simp [populateRow, hprobe]
  | false => simp [populateRow, hprobe]

theorem C4_witness :
    ((rowT.locked = true ↔
       ppT.probe (destPath ppT (lookupD stT.userSettings "download_directory" "./")
         rowT.title) = true)
     ∧ (rowT.progress = "Complete" ↔ rowT.locked = true)
     ∧ rowT.checked = false) :=
  C4_locked_iff_probe_complete ppT stT rowT (by decide)

/-- C9: the row-to-destination-path correspondence is keyed by item title:
every populated row's title looks up successfully to the path derived from
that title, so any two rows with equal titles resolve to the same
(most-recently-stored) path, and when the probe reports that path complete
the select-all pass skips every such row (its state is returned intact). -/
theorem C9_title_keyed_correspondence (pp : PopParams) (s : MWState) :
    (∀ r ∈ (populate_window_list pp s).rows,
       (populate_window_list pp s).dlPathCorrespondences.lookup r.title
         = some (destPath pp (lookupD s.userSettings "download_directory" "./")
             r.title))
    ∧ (∀ r1 ∈ (populate_window_list pp s).rows,
       ∀ r2 ∈ (populate_window_list pp s).rows,
         r1.title = r2.title →
         (populate_window_list pp s).dlPathCorrespondences.lookup r1.title
           = (populate_window_list pp s).dlPathCorrespondences.lookup r2.title)
    ∧ (lookupD s.userSettings "download_directory" "./" ≠ "" →
       ∀ (v : Bool), ∀ r ∈ (populate_window_list pp s).rows,
         pp.probe (destPath pp (lookupD s.userSettings "download_directory" "./")
           r.title) = true →
         onSelectAllRow pp.probe
           (populate_window_list pp s).dlPathCorrespondences v r = some r) := by
  have hlook : ∀ r ∈ (populate_window_list pp s).rows,
      (populate_window_list pp s).dlPathCorrespondences.lookup r.title
        = some (destPath pp (lookupD s.userSettings "download_directory" "./")
            r.title) := by
    intro r hr
    simp only [populate_window_list, List.mem_map] at hr ⊢
    obtain ⟨tl, htl, rfl⟩ := hr
    rw [populateRow_title]
    exact corr_fold_lookup _ s.titlesLinks s.dlPathCorrespondences tl.1
      (List.mem_map_of_mem Prod.fst htl)
  refine ⟨hlook, ?_, ?_⟩
  · intro r1 hr1 r2 hr2 ht
    rw [ht]
  · intro hdir v r hr hprobe
    have hl := hlook r hr
    have hne := joinPath_ne_empty (lookupD s.userSettings "download_directory" "./")
      (pp.sanitize r.title) hdir
    unfold onSelectAllRow
    rw [hl]
    simp only [destPath] at hprobe ⊢
    simp [hprobe, hne]

theorem C9_witness :
    ((∀ r ∈ (populate_window_list ppT stT).rows,
        (populate_window_list ppT stT).dlPathCorrespondences.lookup r.title
          = some (destPath ppT (lookupD stT.userSettings "download_directory" "./")
              r.title))
     ∧ (∀ r1 ∈ (populate_window_list ppT stT).rows,
        ∀ r2 ∈ (populate_window_list ppT stT).rows,
          r1.title = r2.title →
          (populate_window_list ppT stT).dlPathCorrespondences.lookup r1.title
            = (populate_window_list ppT stT).dlPathCorrespondences.lookup r2.title)
     ∧ (lookupD stT.userSettings "download_directory" "./" ≠ "" →
        ∀ (v : Bool), ∀ r ∈ (populate_window_list ppT stT).rows,
          ppT.probe (destPath ppT (lookupD stT.userSettings "download_directory" "./")
            r.title) = true →
          onSelectAllRow ppT.probe
            (populate_window_list ppT stT).dlPathCorrespondences v r = some r)) :=
  C9_title_keyed_correspondence ppT stT

/-- When every row's title resolves to a nonempty path, the select-all loop
raises no `KeyError` and rewrites each row independently. -/
theorem onSelectAllRows_eq_map (probe : String → Bool)
    (corr : List (String × String)) (v : Bool) :
    ∀ rows : List Row,
      (∀ r ∈ rows, ∃ p, corr.lookup r.title = some p ∧ p ≠ "") →
      onSelectAllRows probe corr v rows
        = some (rows.map (selectAllResultRow probe corr v)) := by
  intro rows
  induction rows with
  | nil => intro _; rfl
  | cons r rest ih =>
      intro h
      obtain ⟨p, hp, hpne⟩ := h r (List.mem_cons_self r rest)
      have ihr := ih (fun x hx => h x (List.mem_cons_of_mem r hx))
      by_cases hc : (p ≠ "" ∧ probe p = true)
      · simp [onSelectAllRows, onSelectAllRow, selectAllResultRow, hp, hc, ihr]
      · simp [onSelectAllRows, onSelectAllRow, selectAllResultRow, hp, hc, ihr]

/-- C5: select-all sets the check state of exactly the rows whose looked-up
destination path the probe does not report complete; rows whose path is
reported complete are skipped with their entire state unchanged. -/
theorem C5_select_all_skips_complete (probe : String → Bool) (sv : Nat)
    (s : MWState)
    (h : ∀ r ∈ s.rows,
      ∃ p, s.dlPathCorrespondences.lookup r.title = some p ∧ p ≠ "") :
    onSelectAllStateChanged probe sv s
      = some ({ s with
          rows := s.rows.map
            (selectAllResultRow probe s.dlPathCorrespondences (sv == 2)) })
    ∧ (∀ r ∈ s.rows, ∀ p, s.dlPathCorrespondences.lookup r.title = some p →
        ((probe p = true →
           selectAllResultRow probe s.dlPathCorrespondences (sv == 2) r = r)
         ∧ (probe p = false →
           selectAllResultRow probe s.dlPathCorrespondences (sv == 2) r
             = { r with checked := (sv == 2) }))) := by
  constructor
  · unfold onSelectAllStateChanged
    rw [onSelectAllRows_eq_map probe s.dlPathCorrespondences (sv == 2) s.rows h]
    rfl
  · intro r hr p hp
    obtain ⟨q, hq, hqne⟩ := h r hr
    have hpq : p = q := by
      rw [hp] at hq
      exact Option.some.inj hq
    subst hpq
    constructor
    · intro htrue
      simp [selectAllResultRow, hp, hqne, htrue]
    · intro hfalse
      simp [selectAllResultRow, hp, hfalse]

theorem C5_witness :
    onSelectAllStateChanged probeDone 2 c5State
      = some ({ c5State with
          rows := c5State.rows.map
            (selectAllResultRow probeDone c5State.dlPathCorrespondences
              ((2 : Nat) == 2)) })
    ∧ (∀ r ∈ c5State.rows, ∀ p,
        c5State.dlPathCorrespondences.lookup r.title = some p →
        ((probeDone p = true →
           selectAllResultRow probeDone c5State.dlPathCorrespondences
             ((2 : Nat) == 2) r = r)
         ∧ (probeDone p = false →
           selectAllResultRow probeDone c5State.dlPathCorrespondences
             ((2 : Nat) == 2) r = { r with checked := ((2 : Nat) == 2) }))) :=
  C5_select_all_skips_complete probeDone 2 c5State
    (by
      intro r hr
      cases hr with
      | head => exact ⟨"./done", by decide, by decide⟩
      | tail _ hr2 =>
          cases hr2 with
          | head => exact ⟨"./t2", by decide, by decide⟩
          | tail _ hr3 => cases hr3)

/-- C8: every thread `dl_vids` spawns has its completion signal connected to
`populate_window_list`, and that rebuild depends only on the stored
(title, link) list and settings — it erases all per-row state, recreating
every row unchecked with progress either empty or `Complete`, regardless of
the previous model contents (including rows of still-running jobs). -/
theorem C8_completion_rebuilds_model (pp : PopParams) (s1 s2 : MWState)
    (ht : s1.titlesLinks = s2.titlesLinks)
    (hu : s1.userSettings = s2.userSettings) :
    (populate_window_list pp s1).rows = (populate_window_list pp s2).rows
    ∧ (∀ dir tl, (populateRow pp dir tl).checked = false
        ∧ ((populateRow pp dir tl).progress = ""
           ∨ (populateRow pp dir tl).progress = "Complete"))
    ∧ (∀ s : MWState, (dl_vids s).dlThreads
         = s.dlThreads ++ (checkedIndexes s.rows).map (spawnThread s.rows))
    ∧ (∀ rows i, (spawnThread rows i).completeConns
         = [Slot.populateWindowList]) := by
  refine ⟨?_, ?_, fun s => rfl, fun rows i => rfl⟩
  · show s1.titlesLinks.map
        (populateRow pp (lookupD s1.userSettings "download_directory" "./"))
      = s2.titlesLinks.map
        (populateRow pp (lookupD s2.userSettings "download_directory" "./"))
    rw [ht, hu]
  · intro dir tl
    unfold populateRow
    split <;> simp

theorem C8_witness :
    (populate_window_list ppNone c8StateA).rows
        = (populate_window_list ppNone c8StateB).rows
    ∧ (∀ dir tl, (populateRow ppNone dir tl).checked = false
        ∧ ((populateRow ppNone dir tl).progress = ""
           ∨ (populateRow ppNone dir tl).progress = "Complete"))
    ∧ (∀ s : MWState, (dl_vids s).dlThreads
         = s.dlThreads ++ (checkedIndexes s.rows).map (spawnThread s.rows))
    ∧ (∀ rows i, (spawnThread rows i).completeConns
         = [Slot.populateWindowList]) :=
  C8_completion_rebuilds_model ppNone c8StateA c8StateB rfl rfl

/-- Delivering one fetch-completion slot never touches the download-thread
list. -/
theorem runFetchSlot_dlThreads (pp : PopParams) (res : List (String × String))
    (s : MWState) (sl : FetchSlot) :
    (runFetchSlot pp res s sl).dlThreads = s.dlThreads := by
  cases sl <;> rfl

/-- Delivering a whole fetch completion never touches the download-thread
list. -/
theorem foldl_runFetchSlot_dlThreads (pp : PopParams)
    (res : List (String × String)) :
    ∀ (conns : List FetchSlot) (s : MWState),
      (conns.foldl (runFetchSlot pp res) s).dlThreads = s.dlThreads := by
  intro conns
  induction conns with
  | nil => intro s; rfl
  | cons c cs ih =>
      intro s
      rw [List.foldl_cons, ih, runFetchSlot_dlThreads]

/-- Starting a list fetch never touches the download-thread list. -/
theorem show_vid_list_dlThreads (p : URLPredicates) (url : String)
    (s : MWState) :
    (show_vid_list p url s).dlThreads = s.dlThreads := by
  unfold show_vid_list startFetch
  split
  · rfl
  · split
    · split <;> rfl
    · split <;> rfl

/-- Every event-loop operation either preserves the download-thread list or
appends threads spawned by `dl_vids`. -/
theorem applyOp_dlThreads (s : MWState) (op : MWOp) :
    (applyOp s op).dlThreads = s.dlThreads
    ∨ (applyOp s op).dlThreads
        = s.dlThreads ++ (checkedIndexes s.rows).map (spawnThread s.rows) := by
  cases op with
  | opDlVids => exact Or.inr rfl
  | opSelectAll probe sv =>
      left
      show (match onSelectAllStateChanged probe sv s with
            | some s' => s'
            | none => s).dlThreads = s.dlThreads
      unfold onSelectAllStateChanged
      rcases hrows : onSelectAllRows probe s.dlPathCorrespondences (sv == 2)
          s.rows with _ | rs
      · rfl
      · rfl
  | opPopulate pp => exact Or.inl rfl
  | opHandleVideoList pp res => exact Or.inl rfl
  | opUpdateProgress i prog => exact Or.inl rfl
  | opShowVidList p url => exact Or.inl (show_vid_list_dlThreads p url s)
  | opCompleteFetch pp i res =>
      left
      show (completeFetch pp i res s).dlThreads = s.dlThreads
      unfold completeFetch
      rcases hf : s.liveFetches.get? i with _ | f
      · rfl
      · show (f.finishedConns.foldl (runFetchSlot pp res) s).dlThreads
          = s.dlThreads
        exact foldl_runFetchSlot_dlThreads pp res f.finishedConns s

/-- The connection pattern of download threads is an invariant of every
operation sequence. -/
theorem foldl_applyOp_threadConns :
    ∀ (ops : List MWOp) (s : MWState),
      (∀ t ∈ s.dlThreads, threadConnsOK t) →
      ∀ t ∈ (ops.foldl applyOp s).dlThreads, threadConnsOK t := by
  intro ops
  induction ops with
  | nil => intro s h; exact h
  | cons op rest ih =>
      intro s h
      rw [List.foldl_cons]
      apply ih
      intro t ht
      rcases applyOp_dlThreads s op with heq | heq
      · rw [heq] at ht
        exact h t ht
      · rw [heq] at ht
        rcases List.mem_append.mp ht with h1 | h2
        · exact h t h1
        · obtain ⟨i, hi, rfl⟩ := List.mem_map.mp h2
          exact ⟨rfl, rfl⟩

/-- C10: `connect_signals` runs its thread loop at construction time, when
`dl_threads` is empty, so no thread is ever connected to
`handle_download_error` or `show_download_complete`; threads created later
by `dl_vids` carry exactly the progress-updater and list-repopulation
connections, in every reachable state. -/
theorem C10_error_handler_never_connected (us : List (String × String))
    (ops : List MWOp) (t : DLThread)
    (ht : t ∈ (runOps us ops).dlThreads) :
    (mainWindowInit us).dlThreads = []
    ∧ t.progressConns = [Slot.updateProgress]
    ∧ t.completeConns = [Slot.populateWindowList]
    ∧ Slot.handleDownloadError ∉ t.progressConns
    ∧ Slot.handleDownloadError ∉ t.completeConns
    ∧ Slot.showDownloadComplete ∉ t.progressConns
    ∧ Slot.showDownloadComplete ∉ t.completeConns := by
  have hinv := foldl_applyOp_threadConns ops (mainWindowInit us)
    (by intro x hx; cases hx) t ht
  obtain ⟨hp, hc⟩ := hinv
  refine ⟨rfl, hp, hc, ?_, ?_, ?_, ?_⟩
  · rw [hp]; decide
  · rw [hc]; decide
  · rw [hp]; decide
  · rw [hc]; decide

theorem C10_witness :
    (mainWindowInit []).dlThreads = []
    ∧ c10Thread.progressConns = [Slot.updateProgress]
    ∧ c10Thread.completeConns = [Slot.populateWindowList]
    ∧ Slot.handleDownloadError ∉ c10Thread.progressConns
    ∧ Slot.handleDownloadError ∉ c10Thread.completeConns
    ∧ Slot.showDownloadComplete ∉ c10Thread.progressConns
    ∧ Slot.showDownloadComplete ∉ c10Thread.completeConns :=
  C10_error_handler_never_connected [] c10Ops c10Thread (by decide)

theorem C6_witness :
    (mainWindowInit [("download_directory", "./")]).semCapacity = 4
    ∧ 0 < (mainWindowInit [("download_directory", "./")]).semCapacity :=
  C6_capacity_hardcoded_four [("download_directory", "./")]

theorem C7_witness :
    (handle_download_error { index := 3, error := some "Network error" }
        = ErrorKind.downloadError ↔
      ({ index := 3, error := some "Network error" } : ErrorData).error
        = some "Download error")
    ∧ (handle_download_error { index := 3, error := some "Network error" }
        = ErrorKind.networkError ↔
      ({ index := 3, error := some "Network error" } : ErrorData).error
        = some "Network error")
    ∧ (handle_download_error { index := 3, error := some "Network error" }
        = ErrorKind.unexpectedError ↔
      (({ index := 3, error := some "Network error" } : ErrorData).error
          ≠ some "Download error"
       ∧ ({ index := 3, error := some "Network error" } : ErrorData).error
          ≠ some "Network error")) :=
  C7_error_classification { index := 3, error := some "Network error" }
